import Mathlib

/-!
Verification development for `llama_index/prompts/base.py`.

The data model and the operations of the prompt module are embedded as plain
Lean values and total functions.  Python dictionaries of keyword bindings are
association lists with insertion-order update semantics, Python exceptions are
an explicit error type threaded through `Except`, and the substitution engine
of `str.format` (external to the repository, restricted to named placeholders
as the spec's §4.1 contract describes) is a tokenizer plus a renderer over the
token stream.
-/

set_option autoImplicit false
set_option linter.unusedVariables false

deriving instance DecidableEq for Except

/-- Opaque language-model descriptor: the module only ever hands it to selector
predicates, so its identity is all that matters. -/
structure LLM where
  id : Nat
deriving DecidableEq

/-- Opaque output-parser reference: stored verbatim on a template, never invoked. -/
structure BaseOutputParser where
  id : Nat
deriving DecidableEq

/-- Role-tagged chat message (`ChatMessage` from `llama_index.llms.base`): a role
label and an optional content string. -/
structure ChatMessage where
  role : String
  content : Option String
deriving DecidableEq

/-- Keyword-binding dictionaries, as insertion-ordered association lists whose
keys are unique when built by the operations below. -/
abbrev Bindings := List (String × String)

/-- Python dict lookup: the value at the first (unique) occurrence of the key. -/
def dictLookup : Bindings → String → Option String
  | [], _ => none
  | p :: rest, k => if p.1 = k then some p.2 else dictLookup rest k

/-- Python `d[k] = v`: overwrite in place when the key is present, append otherwise. -/
def dictInsert (d : Bindings) (k v : String) : Bindings :=
  if d.any (fun p => decide (p.1 = k)) then d.map (fun p => if p.1 = k then (p.1, v) else p)
  else d ++ [(k, v)]

/-- Python `d.update(new)`, which is also the merge performed by the
double-splat dict literal: later entries override earlier ones in place. -/
def dictUpdate (d : Bindings) (new : Bindings) : Bindings :=
  new.foldl (fun acc p => dictInsert acc p.1 p.2) d

/-- Python exceptions that the embedded code can raise.  `keyError` is the
render-time Format error of the spec (a referenced placeholder with no bound
value); the others are not Format errors. -/
inductive PyErr where
  | keyError (k : String)
  | valueError
  | attributeError
  | unboundLocalError
deriving DecidableEq

/-- Tokenized form of a format string: literal characters and named replacement
fields. -/
inductive Tok where
  | lit (c : Char)
  | field (name : String)
deriving DecidableEq

/-- Prepend a token to a tokenization result, keeping its malformedness flag. -/
def prependTok (t : Tok) : List Tok × Bool → List Tok × Bool
  | (ts, m) => (t :: ts, m)

/-- Modelled from the spec: the template syntax shared by the Placeholder
Extractor (§4.1) and the substitution engine of `str.format` (§4.2), neither of
which is under `src/`.  Per the spec's contract the syntax has exactly literal
characters, doubled (escaped) braces, and well-formed named `\x7bname\x7d`
fields; anything else (an unmatched brace or an empty field name) is a
malformed construct.  The first argument is `none` in literal mode and
`some acc` while reading a field name (characters collected in reverse).  The
result is the token list up to the first malformed construct, paired with a
flag recording whether such a construct exists. -/
def tokAux : Option (List Char) → List Char → List Tok × Bool
  | none, [] => ([], false)
  | none, '{' :: '{' :: rest => prependTok (.lit '{') (tokAux none rest)
  | none, '}' :: '}' :: rest => prependTok (.lit '}') (tokAux none rest)
  | none, '{' :: rest => tokAux (some []) rest
  | none, '}' :: _ => ([], true)
  | none, c :: rest => prependTok (.lit c) (tokAux none rest)
  | some _, [] => ([], true)
  | some acc, '}' :: rest =>
      if acc.isEmpty then ([], true)
      else prependTok (.field (String.mk acc.reverse)) (tokAux none rest)
  | some acc, c :: rest => tokAux (some (c :: acc)) rest

/-- Names of the replacement fields of a token list, in order, one entry per
occurrence. -/
def fieldNames : List Tok → List String
  | [] => []
  | .lit _ :: ts => fieldNames ts
  | .field n :: ts => n :: fieldNames ts

/-- Modelled from the spec: the substitution pass of `str.format` over the
token stream, left to right.  A field whose name has no binding raises the
Format error `keyError`; a malformed construct raises `valueError` once the
tokens before it have been processed; extra bound keys are never looked at. -/
def renderToksAux (b : Bindings) (m : Bool) : List Tok → Except PyErr (List Char)
  | [] => if m then .error .valueError else .ok []
  | .lit c :: ts =>
      match renderToksAux b m ts with
      | .ok s => .ok (c :: s)
      | .error e => .error e
  | .field n :: ts =>
      match dictLookup b n with
      | some v =>
          match renderToksAux b m ts with
          | .ok s => .ok (v.toList ++ s)
          | .error e => .error e
      | none => .error (.keyError n)

/-- Rendering of a tokenization result: see `renderToksAux`. -/
def renderToks (b : Bindings) : List Tok × Bool → Except PyErr (List Char)
  | (ts, m) => renderToksAux b m ts

/-- Tokenization of a template string. -/
def pyTokens (s : String) : List Tok × Bool := tokAux none s.toList

/-- Modelled from the spec: `get_template_vars` from
`llama_index/prompts/utils.py` (not under `src/`), §4.1 of the spec: the list
of named placeholders the template string references, in order of appearance,
one entry per occurrence, with escaped/doubled braces ignored. -/
def get_template_vars (s : String) : List String := fieldNames (pyTokens s).1

/-- Modelled from the spec: Python's `str.format` restricted to the named
placeholder syntax of §4.1. -/
def pyFormat (s : String) (b : Bindings) : Except PyErr String :=
  match renderToks b (pyTokens s) with
  | .ok cs => .ok (String.mk cs)
  | .error e => .error e

/-- State of a `PromptTemplate` (String Prompt Template): `self._template`,
`self.kwargs`, the `prompt_type` stored in `self.metadata`, and
`self.output_parser`. -/
structure PromptTemplate where
  template : String
  kwargs : Bindings
  prompt_type : String
  outputParser : Option BaseOutputParser
deriving DecidableEq

/-- Embeds `PromptTemplate.template_vars`: `get_template_vars(self._template)`. -/
def PromptTemplate.template_vars (pt : PromptTemplate) : List String :=
  get_template_vars pt.template

/-- Embeds `PromptTemplate.partial_format`: `prompt = deepcopy(self);
prompt.kwargs.update(kwargs); return prompt`, as a copy with merged bindings. -/
def PromptTemplate.partialFormat (pt : PromptTemplate) (kwargs : Bindings) : PromptTemplate :=
  { pt with kwargs := dictUpdate pt.kwargs kwargs }

/-- Embeds `PromptTemplate.format`: the `llm` argument is deleted unused, the
stored and call-site bindings are merged (call site wins), and the merged dict
is substituted into the template string. -/
def PromptTemplate.format (pt : PromptTemplate) (llm : Option LLM) (kwargs : Bindings) :
    Except PyErr String :=
  pyFormat pt.template (dictUpdate pt.kwargs kwargs)

/-- State of a `ChatPromptTemplate`: `self._message_templates`, `self.kwargs`,
the `prompt_type` stored in `self.metadata`, and `self.output_parser`. -/
structure ChatPromptTemplate where
  message_templates : List ChatMessage
  kwargs : Bindings
  prompt_type : String
  outputParser : Option BaseOutputParser
deriving DecidableEq

/-- Embeds `ChatPromptTemplate.template_vars`: the loop that extends one list
with `get_template_vars(message_template.content or "")` per message. -/
def ChatPromptTemplate.template_vars (ct : ChatPromptTemplate) : List String :=
  ct.message_templates.foldl (fun acc m => acc ++ get_template_vars (m.content.getD "")) []

/-- Embeds `ChatPromptTemplate.partial_format`: deep copy, then merge the new
bindings into the copy's `kwargs`. -/
def ChatPromptTemplate.partialFormat (ct : ChatPromptTemplate) (kwargs : Bindings) :
    ChatPromptTemplate :=
  { ct with kwargs := dictUpdate ct.kwargs kwargs }

/-- Embeds the message loop of `ChatPromptTemplate.format_messages`: for each
message template in order, filter the merged bindings down to the keys in that
message's own placeholder list, substitute them into the message's content, and
emit a copy of the message with the substituted content. -/
def formatMessagesAux (all : Bindings) : List ChatMessage → Except PyErr (List ChatMessage)
  | [] => .ok []
  | m :: rest =>
      match pyFormat (m.content.getD "")
          (all.filter fun p => (get_template_vars (m.content.getD "")).contains p.1) with
      | .error e => .error e
      | .ok content =>
          match formatMessagesAux all rest with
          | .error e => .error e
          | .ok tail => .ok ({ m with content := some content } :: tail)

/-- Embeds `ChatPromptTemplate.format_messages`: the `llm` argument is deleted
unused, the stored and call-site bindings are merged (call site wins), and the
message loop runs over the owned message templates. -/
def ChatPromptTemplate.format_messages (ct : ChatPromptTemplate) (llm : Option LLM)
    (kwargs : Bindings) : Except PyErr (List ChatMessage) :=
  formatMessagesAux (dictUpdate ct.kwargs kwargs) ct.message_templates

/-- Embeds `ChatPromptTemplate.format`: the `llm` argument is deleted unused,
`format_messages` runs with the call-site bindings only, and the resulting
message list is flattened by the external messages-to-prompt collaborator
(passed as a parameter, per §6 of the spec). -/
def ChatPromptTemplate.format (m2p : List ChatMessage → String) (ct : ChatPromptTemplate)
    (llm : Option LLM) (kwargs : Bindings) : Except PyErr String :=
  match ChatPromptTemplate.format_messages ct none kwargs with
  | .ok ms => .ok (m2p ms)
  | .error e => .error e

example : get_template_vars "You are {persona}" = ["persona"] := by decide

example : pyFormat "{a}-{b}" [("a", "1")] = .error (.keyError "b") := by decide

example : pyFormat "{a}-{b}" [("b", "2"), ("a", "1"), ("c", "9")] = .ok "1-2" := by decide

/-- Closed variant set of `BasePromptTemplate` values a selector can own (§9 of
the spec): string templates, chat templates, and nested selector templates.
The `sel` constructor carries the state of a `SelectorPromptTemplate`:
`self.default_prompt` and `self.conditionals`. -/
inductive BasePT where
  | str (pt : PromptTemplate)
  | chat (ct : ChatPromptTemplate)
  | sel (default_prompt : BasePT) (conditionals : List ((LLM → Bool) × BasePT))

/-- Embeds the conditional loop of `SelectorPromptTemplate._select` (shared
with the langchain selector model): the template paired with the first
predicate, in list order, that evaluates true. -/
def firstMatch {α : Type} (l : LLM) : List ((LLM → Bool) × α) → Option α
  | [] => none
  | (c, p) :: rest => if c l then some p else firstMatch l rest

/-- Embeds `SelectorPromptTemplate._select`: the default template when no llm
is given, else the template of the first matching conditional, else the
default template. -/
def SelectorPromptTemplate.select (d : BasePT) (conds : List ((LLM → Bool) × BasePT))
    (llm : Option LLM) : BasePT :=
  match llm with
  | none => d
  | some l =>
      match firstMatch l conds with
      | some p => p
      | none => d

theorem firstMatch_sizeOf {p : BasePT} (l : LLM) :
    ∀ conds : List ((LLM → Bool) × BasePT), firstMatch l conds = some p → sizeOf p < sizeOf conds
  | [], h => by simp [firstMatch] at h
  | (c, q) :: rest, h => by
      rw [firstMatch] at h
      by_cases hc : c l
      · simp [hc] at h
        subst h
        simp
        omega
      · simp [hc] at h
        have := firstMatch_sizeOf l rest h
        simp
        omega

theorem select_sizeOf (d : BasePT) (conds : List ((LLM → Bool) × BasePT)) (llm : Option LLM) :
    sizeOf (SelectorPromptTemplate.select d conds llm) < sizeOf (BasePT.sel d conds) := by
  cases llm with
  | none => simp [SelectorPromptTemplate.select]; omega
  | some l =>
      rw [SelectorPromptTemplate.select]
      cases hfm : firstMatch l conds with
      | none => simp; omega
      | some p =>
          have := firstMatch_sizeOf l conds hfm
          simp
          omega

/-- Embeds `format` across the template variants: on a selector,
`SelectorPromptTemplate.format` selects with the given llm and calls `format`
on the selected template without passing the llm on. -/
def BasePT.format (m2p : List ChatMessage → String) :
    BasePT → Option LLM → Bindings → Except PyErr String
  | .str pt, llm, kw => PromptTemplate.format pt llm kw
  | .chat ct, llm, kw => ChatPromptTemplate.format m2p ct llm kw
  | .sel d conds, llm, kw =>
      BasePT.format m2p (SelectorPromptTemplate.select d conds llm) none kw
termination_by t _ _ => sizeOf t
decreasing_by exact select_sizeOf d conds llm

mutual

/-- Embeds `partial_format` across the template variants; on a selector this is
`SelectorPromptTemplate.partial_format`, which partially binds the default and
every conditional template with the same bindings and keeps every predicate. -/
def BasePT.partialFormat : BasePT → Bindings → BasePT
  | .str pt, kw => .str (PromptTemplate.partialFormat pt kw)
  | .chat ct, kw => .chat (ChatPromptTemplate.partialFormat ct kw)
  | .sel d conds, kw => .sel (BasePT.partialFormat d kw) (partialFormatConds conds kw)
termination_by t _ => sizeOf t

/-- List comprehension of `SelectorPromptTemplate.partial_format` over the
conditional pairs: each predicate is kept and its template partially bound. -/
def partialFormatConds : List ((LLM → Bool) × BasePT) → Bindings → List ((LLM → Bool) × BasePT)
  | [], _ => []
  | (c, p) :: rest, kw => (c, BasePT.partialFormat p kw) :: partialFormatConds rest kw
termination_by l _ => sizeOf l

end

/-- Model of the external langchain template object used by the bridged
variant: only the pieces the bridged code touches (a template string, an
output-parser reference, and the selector structure around it). -/
structure LangchainTemplate where
  template : String
  outputParser : Option BaseOutputParser

/-- Model of langchain's `ConditionalPromptSelector`: a default template plus
ordered (predicate, template) conditionals. -/
structure LangchainSelector where
  default_prompt : LangchainTemplate
  conditionals : List ((LLM → Bool) × LangchainTemplate)

/-- Model of langchain's `ConditionalPromptSelector.get_prompt`: first matching
conditional, else the default (only ever reached by dead code here). -/
def LangchainSelector.get_prompt (s : LangchainSelector) (llm : Option LLM) : LangchainTemplate :=
  match llm with
  | none => s.default_prompt
  | some l => (firstMatch l s.conditionals).getD s.default_prompt

/-- State of a constructed `LangchainPromptTemplate`: `self._selector`, the
`prompt_type` stored in `self.metadata`, and `self.output_parser`. -/
structure LangchainPromptTemplate where
  selector : LangchainSelector
  prompt_type : String
  outputParser : Option BaseOutputParser

/-- Embeds `LangchainPromptTemplate.__init__`.  With neither argument, or with
both, it raises `ValueError("Must provide either template or selector.")`.
With only a template it wraps the template in a fresh selector.  With only a
selector, control reaches the unconditional statement
`self.output_parser = template.output_parser` while `template` is `None`, so
the attribute access raises `AttributeError`. -/
def LangchainPromptTemplate.init (template : Option LangchainTemplate)
    (selector : Option LangchainSelector) (prompt_type : String) :
    Except PyErr LangchainPromptTemplate :=
  match selector with
  | none =>
      match template with
      | none => .error .valueError
      | some t =>
          .ok { selector := { default_prompt := t, conditionals := [] }
              , prompt_type := prompt_type
              , outputParser := t.outputParser }
  | some s =>
      match template with
      | some _ => .error .valueError
      | none => .error .attributeError

/-- State of the local variable `llm` inside `LangchainPromptTemplate.format`
and `format_messages` right after the statement `del llm`: the local no longer
exists, and reading it raises `UnboundLocalError`. -/
def deletedLlmLocal : Option (Option LLM) := none

/-- Embeds `LangchainPromptTemplate.format`: the body runs `del llm` and then
evaluates `self._selector.get_prompt(llm=llm)`, reading the deleted local. -/
def LangchainPromptTemplate.format (self : LangchainPromptTemplate) (llm : Option LLM)
    (kwargs : Bindings) : Except PyErr String :=
  match deletedLlmLocal with
  | none => .error .unboundLocalError
  | some l => pyFormat (LangchainSelector.get_prompt self.selector l).template kwargs

/-- Embeds `LangchainPromptTemplate.format_messages`: the body runs `del llm`
and then evaluates `self._selector.get_prompt(llm=llm)`, reading the deleted
local.  The unreachable rest of the body (format_prompt, to_messages, and the
from_lc_messages translator, all external collaborators) is abstracted as the
`translate` parameter. -/
def LangchainPromptTemplate.format_messages
    (translate : LangchainTemplate → Bindings → Except PyErr (List ChatMessage))
    (self : LangchainPromptTemplate) (llm : Option LLM) (kwargs : Bindings) :
    Except PyErr (List ChatMessage) :=
  match deletedLlmLocal with
  | none => .error .unboundLocalError
  | some l => translate (LangchainSelector.get_prompt self.selector l) kwargs

/-- Heap of Python dict objects, addressed by allocation index.  Object
identity of the mutable `kwargs` dicts is what the frame property of
`partial_format` is about, so those dicts live in this heap. -/
abbrev DictHeap := List Bindings

/-- Read a dict object from the heap. -/
def heapGet (h : DictHeap) (r : Nat) : Bindings := (List.get? h r).getD []

/-- Heap-level state of a `PromptTemplate`: as `PromptTemplate`, but the
mutable `kwargs` dict is held by reference. -/
structure PromptTemplateObj where
  template : String
  kwargsRef : Nat
  prompt_type : String
  outputParser : Option BaseOutputParser

/-- Heap-level state of a `ChatPromptTemplate`: as `ChatPromptTemplate`, but
the mutable `kwargs` dict is held by reference. -/
structure ChatPromptTemplateObj where
  message_templates : List ChatMessage
  kwargsRef : Nat
  prompt_type : String
  outputParser : Option BaseOutputParser

/-- Heap-level embedding of `PromptTemplate.partial_format`:
`prompt = deepcopy(self)` allocates a fresh dict with the same entries,
`prompt.kwargs.update(kwargs)` mutates only that fresh dict, and the copy is
returned. -/
def PromptTemplateObj.partialFormat (h : DictHeap) (self : PromptTemplateObj)
    (kwargs : Bindings) : DictHeap × PromptTemplateObj :=
  let copied := heapGet h self.kwargsRef
  let h1 := h ++ [copied]
  let prompt : PromptTemplateObj := { self with kwargsRef := h.length }
  let h2 := h1.set prompt.kwargsRef (dictUpdate copied kwargs)
  (h2, prompt)

/-- Heap-level embedding of `PromptTemplate.format`. -/
def PromptTemplateObj.format (h : DictHeap) (self : PromptTemplateObj) (llm : Option LLM)
    (kwargs : Bindings) : Except PyErr String :=
  pyFormat self.template (dictUpdate (heapGet h self.kwargsRef) kwargs)

/-- Heap-level embedding of `ChatPromptTemplate.partial_format`: `deepcopy`
also copies the message-template list by value, so only the fresh dict is
shared state, and only it is updated. -/
def ChatPromptTemplateObj.partialFormat (h : DictHeap) (self : ChatPromptTemplateObj)
    (kwargs : Bindings) : DictHeap × ChatPromptTemplateObj :=
  let copied := heapGet h self.kwargsRef
  let h1 := h ++ [copied]
  let prompt : ChatPromptTemplateObj := { self with kwargsRef := h.length }
  let h2 := h1.set prompt.kwargsRef (dictUpdate copied kwargs)
  (h2, prompt)

/-- Heap-level embedding of `ChatPromptTemplate.format_messages`. -/
def ChatPromptTemplateObj.format_messages (h : DictHeap) (self : ChatPromptTemplateObj)
    (llm : Option LLM) (kwargs : Bindings) : Except PyErr (List ChatMessage) :=
  formatMessagesAux (dictUpdate (heapGet h self.kwargsRef) kwargs) self.message_templates

/-! Dictionary lemmas. -/

theorem dictLookup_cons (p : String × String) (rest : Bindings) (k : String) :
    dictLookup (p :: rest) k = if p.1 = k then some p.2 else dictLookup rest k := rfl

theorem dictLookup_map_replace (d : Bindings) (k v k' : String) (hne : k' ≠ k) :
    dictLookup (d.map fun p => if p.1 = k then (p.1, v) else p) k' = dictLookup d k' := by
  induction d with
  | nil => rfl
  | cons p rest ih =>
      rw [List.map_cons, dictLookup_cons, dictLookup_cons]
      by_cases hp : p.1 = k
      · have hq : ¬ k = k' := fun h => hne h.symm
        rw [if_pos hp]
        have hq1 : ¬ ((p.1, v) : String × String).1 = k' := hp ▸ hq
        have hq2 : ¬ p.1 = k' := hp ▸ hq
        rw [if_neg hq1, if_neg hq2, ih]
      · rw [if_neg hp]
        by_cases hq : p.1 = k'
        · rw [if_pos hq, if_pos hq]
        · rw [if_neg hq, if_neg hq, ih]

theorem dictLookup_append_single (d : Bindings) (k v k' : String) (hne : k' ≠ k) :
    dictLookup (d ++ [(k, v)]) k' = dictLookup d k' := by
  induction d with
  | nil =>
      have : ¬ k = k' := fun h => hne h.symm
      simp [dictLookup, this]
  | cons p rest ih =>
      by_cases hq : p.1 = k'
      · simp [dictLookup, hq]
      · simp [dictLookup, hq, ih]

theorem dictLookup_dictInsert_ne (d : Bindings) (k v k' : String) (hne : k' ≠ k) :
    dictLookup (dictInsert d k v) k' = dictLookup d k' := by
  unfold dictInsert
  split
  · exact dictLookup_map_replace d k v k' hne
  · exact dictLookup_append_single d k v k' hne

theorem dictUpdate_append_single (d : Bindings) (xs : Bindings) (k v : String) :
    dictUpdate d (xs ++ [(k, v)]) = dictInsert (dictUpdate d xs) k v := by
  simp [dictUpdate, List.foldl_append]

theorem dictUpdate_single (d : Bindings) (k v : String) :
    dictUpdate d [(k, v)] = dictInsert d k v := rfl

theorem dictInsert_dictInsert (d : Bindings) (k v1 v2 : String) :
    dictInsert (dictInsert d k v1) k v2 = dictInsert d k v2 := by
  unfold dictInsert
  by_cases h : (d.any fun p => decide (p.1 = k)) = true
  · have hmap : ((d.map fun p => if p.1 = k then (p.1, v1) else p).any
        fun p => decide (p.1 = k)) = true := by
      rw [List.any_map]
      rw [List.any_eq_true] at h ⊢
      obtain ⟨p, hp, hpk⟩ := h
      refine ⟨p, hp, ?_⟩
      simp at hpk
      simp [hpk]
    simp only [h, if_true, hmap, List.map_map]
    apply List.map_congr_left
    intro p _
    by_cases hp : p.1 = k <;> simp [hp]
  · have hall : ∀ p ∈ d, ¬ (p.1 = k) := by
      intro p hp hpk
      exact h (List.any_eq_true.mpr ⟨p, hp, by simp [hpk]⟩)
    have happ : ((d ++ [(k, v1)]).any fun p => decide (p.1 = k)) = true := by
      rw [List.any_eq_true]
      exact ⟨(k, v1), by simp, by simp⟩
    rw [if_neg h, if_pos happ, if_neg h, List.map_append]
    have hid : (d.map fun p => if p.1 = k then (p.1, v2) else p) = d := by
      conv_rhs => rw [← List.map_id d]
      exact List.map_congr_left fun p hp => by simp [hall p hp]
    rw [hid]
    simp

theorem dictLookup_filter (tv : List String) (d : Bindings) (n : String) :
    dictLookup (d.filter fun p => tv.contains p.1) n =
      if tv.contains n then dictLookup d n else none := by
  induction d with
  | nil => cases h : tv.contains n <;> simp [dictLookup, h]
  | cons p rest ih =>
      rw [List.filter_cons]
      by_cases hpn : p.1 = n
      · subst hpn
        cases hc : tv.contains p.1
        · rw [if_neg (by simp [hc]), ih, hc]
          simp
        · rw [if_pos (by simp [hc]), dictLookup_cons, dictLookup_cons]
          simp [hc]
      · cases hc : tv.contains p.1
        · rw [if_neg (by simp [hc]), ih, dictLookup_cons, if_neg hpn]
        · rw [if_pos (by simp [hc]), dictLookup_cons, if_neg hpn, ih, dictLookup_cons,
            if_neg hpn]

/-! Renderer lemmas. -/

theorem renderToks_def (b : Bindings) (tsm : List Tok × Bool) :
    renderToks b tsm = renderToksAux b tsm.2 tsm.1 := by
  rcases tsm with ⟨ts, m⟩
  rfl

theorem renderToksAux_congr (b b' : Bindings) (m : Bool) :
    ∀ ts : List Tok, (∀ n ∈ fieldNames ts, dictLookup b n = dictLookup b' n) →
      renderToksAux b m ts = renderToksAux b' m ts := by
  intro ts
  induction ts with
  | nil => intro _; rfl
  | cons t ts ih =>
      intro h
      cases t with
      | lit c =>
          have ih' := ih fun n hn => h n hn
          simp only [renderToksAux, ih']
      | field n =>
          have hn := h n (List.mem_cons_self n (fieldNames ts))
          have ih' := ih fun n' hn' => h n' (List.mem_cons_of_mem n hn')
          simp only [renderToksAux, hn, ih']

theorem renderToksAux_keyError_iff (b : Bindings) (m : Bool) :
    ∀ ts : List Tok, (∃ k, renderToksAux b m ts = .error (.keyError k)) ↔
      ∃ n ∈ fieldNames ts, dictLookup b n = none := by
  intro ts
  induction ts with
  | nil => cases m <;> simp [renderToksAux, fieldNames]
  | cons t ts ih =>
      cases t with
      | lit c =>
          have step : (∃ k, renderToksAux b m (.lit c :: ts) = .error (.keyError k)) ↔
              (∃ k, renderToksAux b m ts = .error (.keyError k)) := by
            cases h : renderToksAux b m ts <;> simp [renderToksAux, h]
          rw [step, ih]
          simp [fieldNames]
      | field n =>
          cases hn : dictLookup b n with
          | none =>
              constructor
              · intro _
                exact ⟨n, List.mem_cons_self n (fieldNames ts), hn⟩
              · intro _
                exact ⟨n, by simp [renderToksAux, hn]⟩
          | some v =>
              have step : (∃ k, renderToksAux b m (.field n :: ts) = .error (.keyError k)) ↔
                  (∃ k, renderToksAux b m ts = .error (.keyError k)) := by
                cases h : renderToksAux b m ts <;> simp [renderToksAux, hn, h]
              rw [step, ih]
              constructor
              · rintro ⟨n', hmem, hnone⟩
                exact ⟨n', List.mem_cons_of_mem n hmem, hnone⟩
              · rintro ⟨n', hmem, hnone⟩
                rcases List.mem_cons.mp hmem with h1 | h2
                · subst h1
                  rw [hn] at hnone
                  cases hnone
                · exact ⟨n', h2, hnone⟩

theorem pyFormat_congr (s : String) (b b' : Bindings)
    (h : ∀ n ∈ get_template_vars s, dictLookup b n = dictLookup b' n) :
    pyFormat s b = pyFormat s b' := by
  unfold pyFormat
  rw [renderToks_def, renderToks_def,
    renderToksAux_congr b b' (pyTokens s).2 (pyTokens s).1 h]

theorem pyFormat_keyError_iff (s : String) (b : Bindings) :
    (∃ k, pyFormat s b = .error (.keyError k)) ↔
      ∃ n ∈ get_template_vars s, dictLookup b n = none := by
  unfold pyFormat get_template_vars
  rw [renderToks_def, ← renderToksAux_keyError_iff b (pyTokens s).2 (pyTokens s).1]
  cases h : renderToksAux b (pyTokens s).2 (pyTokens s).1 with
  | ok cs => simp [h]
  | error e => simp [h]

theorem pyFormat_dictInsert_irrelevant (s : String) (b : Bindings) (k v : String)
    (hk : k ∉ get_template_vars s) :
    pyFormat s (dictInsert b k v) = pyFormat s b :=
  pyFormat_congr s _ _ fun n hn =>
    dictLookup_dictInsert_ne b k v n fun he => hk (he ▸ hn)

/-! Chat message-loop lemmas. -/

theorem foldl_append_flatten {α : Type} (f : α → List String) :
    ∀ (l : List α) (init : List String),
      l.foldl (fun acc x => acc ++ f x) init = init ++ (l.map f).flatten := by
  intro l
  induction l with
  | nil => intro init; simp
  | cons x xs ih =>
      intro init
      rw [List.foldl_cons, ih]
      simp [List.append_assoc]

theorem chat_template_vars_eq_flatten (ct : ChatPromptTemplate) :
    ChatPromptTemplate.template_vars ct =
      (ct.message_templates.map fun mm => get_template_vars (mm.content.getD "")).flatten := by
  unfold ChatPromptTemplate.template_vars
  rw [foldl_append_flatten]
  simp

theorem mem_chat_template_vars (ct : ChatPromptTemplate) (k : String) :
    k ∈ ChatPromptTemplate.template_vars ct ↔
      ∃ mm ∈ ct.message_templates, k ∈ get_template_vars (mm.content.getD "") := by
  rw [chat_template_vars_eq_flatten]
  simp [List.mem_flatten]

theorem formatMessagesAux_ok (all : Bindings) :
    ∀ list ms : List ChatMessage, formatMessagesAux all list = .ok ms →
      ms.length = list.length ∧
      ∀ (i : Nat) (t : ChatMessage), list[i]? = some t →
        ∃ c, pyFormat (t.content.getD "")
              (all.filter fun p => (get_template_vars (t.content.getD "")).contains p.1) = .ok c
            ∧ ms[i]? = some { role := t.role, content := some c } := by
  intro list
  induction list with
  | nil =>
      intro ms h
      simp only [formatMessagesAux] at h
      injection h with h
      subst h
      refine ⟨rfl, ?_⟩
      intro i t ht
      simp at ht
  | cons mm rest ih =>
      intro ms h
      simp only [formatMessagesAux] at h
      cases hc : pyFormat (mm.content.getD "")
          (all.filter fun p => (get_template_vars (mm.content.getD "")).contains p.1) with
      | error e =>
          rw [hc] at h
          exact Except.noConfusion h
      | ok content =>
          rw [hc] at h
          cases hr : formatMessagesAux all rest with
          | error e =>
              rw [hr] at h
              exact Except.noConfusion h
          | ok tail =>
              rw [hr] at h
              injection h with h
              subst h
              obtain ⟨hlen, hidx⟩ := ih tail hr
              refine ⟨by simp [hlen], ?_⟩
              intro i t ht
              cases i with
              | zero =>
                  simp at ht
                  subst ht
                  exact ⟨content, hc, by simp⟩
              | succ i' =>
                  simp at ht
                  obtain ⟨c, hfmt, hget⟩ := hidx i' t ht
                  exact ⟨c, hfmt, by simpa using hget⟩

theorem formatMessagesAux_dictInsert_irrelevant (all : Bindings) (k v : String) :
    ∀ list : List ChatMessage,
      (∀ mm ∈ list, k ∉ get_template_vars (mm.content.getD "")) →
      formatMessagesAux (dictInsert all k v) list = formatMessagesAux all list := by
  intro list
  induction list with
  | nil => intro _; rfl
  | cons mm rest ih =>
      intro hmem
      have hk : k ∉ get_template_vars (mm.content.getD "") := hmem mm (List.mem_cons_self mm rest)
      have hfmt : pyFormat (mm.content.getD "")
          ((dictInsert all k v).filter
            fun p => (get_template_vars (mm.content.getD "")).contains p.1)
          = pyFormat (mm.content.getD "")
            (all.filter fun p => (get_template_vars (mm.content.getD "")).contains p.1) := by
        apply pyFormat_congr
        intro n hn
        rw [dictLookup_filter, dictLookup_filter]
        have hcn : (get_template_vars (mm.content.getD "")).contains n = true := by simpa using hn
        rw [hcn]
        have hnk : n ≠ k := fun he => hk (he ▸ hn)
        simp [dictLookup_dictInsert_ne all k v n hnk]
      simp only [formatMessagesAux]
      rw [hfmt, ih fun x hx => hmem x (List.mem_cons_of_mem mm hx)]

/-! Selector lemmas. -/

theorem partialFormatConds_eq_map (kw : Bindings) :
    ∀ conds : List ((LLM → Bool) × BasePT),
      partialFormatConds conds kw = conds.map fun cp => (cp.1, BasePT.partialFormat cp.2 kw) := by
  intro conds
  induction conds with
  | nil => simp [partialFormatConds]
  | cons cp rest ih =>
      obtain ⟨c, p⟩ := cp
      simp [partialFormatConds, ih]

theorem select_none (d : BasePT) (conds : List ((LLM → Bool) × BasePT)) :
    SelectorPromptTemplate.select d conds none = d := rfl

theorem firstMatch_eq_of_first {α : Type} (l : LLM) :
    ∀ (conds : List ((LLM → Bool) × α)) (i : Nat) (cp : (LLM → Bool) × α),
      conds[i]? = some cp → cp.1 l = true →
      (∀ j, j < i → ∀ cp', conds[j]? = some cp' → cp'.1 l = false) →
      firstMatch l conds = some cp.2 := by
  intro conds
  induction conds with
  | nil => intro i cp hcp; simp at hcp
  | cons hd tl ih =>
      intro i cp hcp htrue hprev
      cases i with
      | zero =>
          simp at hcp
          subst hcp
          simp [firstMatch, htrue]
      | succ i' =>
          have h0 : hd.1 l = false := hprev 0 (Nat.succ_pos i') hd (by simp)
          simp at hcp
          have := ih i' cp hcp htrue fun j hj cp' hcp' =>
            hprev (j + 1) (Nat.succ_lt_succ hj) cp' (by simpa using hcp')
          rw [firstMatch]
          rcases hd with ⟨c, p⟩
          simp only at h0
          simp [h0, this]

theorem firstMatch_none_of_all_false {α : Type} (l : LLM) :
    ∀ conds : List ((LLM → Bool) × α),
      (∀ cp ∈ conds, cp.1 l = false) → firstMatch l conds = none := by
  intro conds
  induction conds with
  | nil => intro _; rfl
  | cons hd tl ih =>
      intro hall
      have h0 : hd.1 l = false := hall hd (List.mem_cons_self hd tl)
      rw [firstMatch]
      rcases hd with ⟨c, p⟩
      simp only at h0
      simp [h0]
      exact ih fun cp hcp => hall cp (List.mem_cons_of_mem _ hcp)

theorem format_sel (m2p : List ChatMessage → String) (d : BasePT)
    (conds : List ((LLM → Bool) × BasePT)) (llm : Option LLM) (kw : Bindings) :
    BasePT.format m2p (.sel d conds) llm kw =
      BasePT.format m2p (SelectorPromptTemplate.select d conds llm) none kw := by
  simp only [BasePT.format]

mutual

theorem partialFormat_twice_aux (b : BasePT) (a v1 v2 : String) :
    BasePT.partialFormat (BasePT.partialFormat b [(a, v1)]) [(a, v2)] =
      BasePT.partialFormat b [(a, v2)] := by
  cases b with
  | str pt =>
      simp only [BasePT.partialFormat]
      unfold PromptTemplate.partialFormat
      simp [dictUpdate_single, dictInsert_dictInsert]
  | chat ct =>
      simp only [BasePT.partialFormat]
      unfold ChatPromptTemplate.partialFormat
      simp [dictUpdate_single, dictInsert_dictInsert]
  | sel d conds =>
      simp only [BasePT.partialFormat]
      rw [partialFormat_twice_aux d a v1 v2, partialFormatConds_twice_aux conds a v1 v2]
termination_by sizeOf b

theorem partialFormatConds_twice_aux (conds : List ((LLM → Bool) × BasePT)) (a v1 v2 : String) :
    partialFormatConds (partialFormatConds conds [(a, v1)]) [(a, v2)] =
      partialFormatConds conds [(a, v2)] := by
  cases conds with
  | nil => simp [partialFormatConds]
  | cons cp rest =>
      obtain ⟨c, p⟩ := cp
      simp only [partialFormatConds]
      rw [partialFormat_twice_aux p a v1 v2, partialFormatConds_twice_aux rest a v1 v2]
termination_by sizeOf conds

end

/-! Heap lemmas. -/

theorem heapGet_partial_old (h : DictHeap) (r : Nat) (x y : Bindings) (hr : r < h.length) :
    heapGet ((h ++ [x]).set h.length y) r = heapGet h r := by
  unfold heapGet
  rw [List.get?_eq_getElem?, List.get?_eq_getElem?,
    List.getElem?_set_ne (by omega), List.getElem?_append, if_pos hr]

theorem heapGet_partial_new (h : DictHeap) (x y : Bindings) :
    heapGet ((h ++ [x]).set h.length y) h.length = y := by
  unfold heapGet
  rw [List.get?_eq_getElem?, List.getElem?_set_self (by simp)]
  rfl

/-! Demonstration values used by the witness theorems. -/

def demoPT : PromptTemplate :=
  { template := "{a}-{b}", kwargs := [("a", "1")], prompt_type := "custom", outputParser := none }

def demoMsg1 : ChatMessage := { role := "system", content := some "You are {persona}" }

def demoMsg2 : ChatMessage := { role := "user", content := some "{query}" }

def demoChat : ChatPromptTemplate :=
  { message_templates := [demoMsg1, demoMsg2], kwargs := [("persona", "helpful")],
    prompt_type := "custom", outputParser := none }

def demoOut : List ChatMessage :=
  [{ role := "system", content := some "You are helpful" },
   { role := "user", content := some "2+2?" }]

def demoM2p : List ChatMessage → String :=
  fun ms => String.intercalate "\n" (ms.map fun mm => mm.role ++ ": " ++ mm.content.getD "")

def demoLLM : LLM := { id := 1 }

def demoLLM0 : LLM := { id := 0 }

def predIdOne : LLM → Bool := fun l => decide (l.id = 1)

def predTrue : LLM → Bool := fun _ => true

def demoD : BasePT :=
  .str { template := "D", kwargs := [], prompt_type := "custom", outputParser := none }

def demoA : BasePT :=
  .str { template := "A", kwargs := [], prompt_type := "custom", outputParser := none }

def demoB : BasePT :=
  .str { template := "B", kwargs := [], prompt_type := "custom", outputParser := none }

def demoConds : List ((LLM → Bool) × BasePT) := [(predIdOne, demoA), (predTrue, demoB)]

def demoHeap : DictHeap := [[("a", "1")]]

def demoPTObj : PromptTemplateObj :=
  { template := "{a}-{b}", kwargsRef := 0, prompt_type := "custom", outputParser := none }

def demoChatObj : ChatPromptTemplateObj :=
  { message_templates := [demoMsg1], kwargsRef := 0, prompt_type := "custom",
    outputParser := none }

/-! Claim theorems. -/

/-- Claim C1: for every Chat Prompt Template and merged binding set on which
`format_messages` succeeds, the output is one-to-one with the owned message
templates, in order, each output message keeping its template's role and
carrying the template content with exactly the bindings whose keys occur in
that message's own placeholder list substituted; and adding a bound key that
is a placeholder of no message leaves the result unchanged (in particular it
never raises). -/
theorem C1_chat_format_messages_per_message (ct : ChatPromptTemplate) (llm : Option LLM)
    (kw : Bindings) (ms : List ChatMessage)
    (h : ChatPromptTemplate.format_messages ct llm kw = .ok ms) :
    ms.length = ct.message_templates.length ∧
    (∀ (i : Nat) (t : ChatMessage), ct.message_templates[i]? = some t →
      ∃ c, pyFormat (t.content.getD "")
            ((dictUpdate ct.kwargs kw).filter
              fun p => (get_template_vars (t.content.getD "")).contains p.1) = .ok c
          ∧ ms[i]? = some { role := t.role, content := some c }) ∧
    (∀ k v, k ∉ ChatPromptTemplate.template_vars ct →
      ChatPromptTemplate.format_messages ct llm (kw ++ [(k, v)]) = .ok ms) := by
  obtain ⟨hlen, hidx⟩ :=
    formatMessagesAux_ok (dictUpdate ct.kwargs kw) ct.message_templates ms h
  refine ⟨hlen, hidx, ?_⟩
  intro k v hk
  unfold ChatPromptTemplate.format_messages
  rw [dictUpdate_append_single]
  rw [formatMessagesAux_dictInsert_irrelevant (dictUpdate ct.kwargs kw) k v ct.message_templates
    fun mm hmm hmem2 => hk ((mem_chat_template_vars ct k).mpr ⟨mm, hmm, hmem2⟩)]
  exact h

/-- Witness for C1 at the spec's own example: two messages, bindings for
`persona` and `query`, plus an unrelated extra key. -/
theorem C1_witness :
    (ChatPromptTemplate.format_messages demoChat none [("query", "2+2?")] = .ok demoOut) ∧
    demoOut.length = demoChat.message_templates.length ∧
    ("extra" ∉ ChatPromptTemplate.template_vars demoChat) ∧
    ChatPromptTemplate.format_messages demoChat none ([("query", "2+2?")] ++ [("extra", "x")])
      = .ok demoOut :=
  ⟨by decide,
   (C1_chat_format_messages_per_message demoChat none [("query", "2+2?")] demoOut (by decide)).1,
   by decide,
   (C1_chat_format_messages_per_message demoChat none [("query", "2+2?")] demoOut
      (by decide)).2.2 "extra" "x" (by decide)⟩

/-- Claim C2: a String Prompt Template's `format` raises the Format error
(KeyError) exactly when some placeholder of the template has no value in the
merge of stored and call-site bindings, and a bound key that is not a
placeholder is silently ignored (the rendered result is unchanged). -/
theorem C2_string_format_error_iff (pt : PromptTemplate) (llm : Option LLM) (kw : Bindings) :
    ((∃ k, PromptTemplate.format pt llm kw = .error (.keyError k)) ↔
      ∃ v ∈ PromptTemplate.template_vars pt, dictLookup (dictUpdate pt.kwargs kw) v = none) ∧
    (∀ k v, k ∉ PromptTemplate.template_vars pt →
      PromptTemplate.format pt llm (kw ++ [(k, v)]) = PromptTemplate.format pt llm kw) := by
  constructor
  · exact pyFormat_keyError_iff pt.template (dictUpdate pt.kwargs kw)
  · intro k v hk
    unfold PromptTemplate.format
    rw [dictUpdate_append_single]
    exact pyFormat_dictInsert_irrelevant pt.template (dictUpdate pt.kwargs kw) k v hk

/-- Witness for C2 at the spec's example "\x7ba\x7d-\x7bb\x7d" with only `a`
bound: a missing `b` gives the Format error, and an unrelated key `c` changes
nothing. -/
theorem C2_witness :
    ("b" ∈ PromptTemplate.template_vars demoPT ∧
      dictLookup (dictUpdate demoPT.kwargs []) "b" = none) ∧
    (∃ k, PromptTemplate.format demoPT none [] = .error (.keyError k)) ∧
    ("c" ∉ PromptTemplate.template_vars demoPT) ∧
    PromptTemplate.format demoPT none ([] ++ [("c", "9")]) = PromptTemplate.format demoPT none [] :=
  ⟨⟨by decide, by decide⟩,
   (C2_string_format_error_iff demoPT none []).1.mpr ⟨"b", by decide, by decide⟩,
   by decide,
   (C2_string_format_error_iff demoPT none []).2 "c" "9" (by decide)⟩

/-- Claim C3 (code bug): construction of the Bridged (Langchain) Template
rejects both-or-neither of \x7btemplate, selector\x7d with the configuration
ValueError and succeeds with a template alone, but with a selector alone it
does not succeed: the unconditional `self.output_parser = template.output_parser`
dereferences `template` while it is `None` and raises AttributeError, although
the class's own `partial_format` constructs exactly this way. -/
theorem C3_langchain_init_behavior (pt : String) :
    (LangchainPromptTemplate.init none none pt = .error .valueError) ∧
    (∀ (t : LangchainTemplate) (s : LangchainSelector),
      LangchainPromptTemplate.init (some t) (some s) pt = .error .valueError) ∧
    (∀ t : LangchainTemplate, ∃ lc, LangchainPromptTemplate.init (some t) none pt = .ok lc) ∧
    (∀ s : LangchainSelector,
      LangchainPromptTemplate.init none (some s) pt = .error .attributeError) :=
  ⟨rfl, fun t s => rfl, fun t => ⟨_, rfl⟩, fun s => rfl⟩

/-- Claim C4: every call of the bridged template's `format` or
`format_messages` reads the local `llm` after `del llm` has removed it, so it
raises UnboundLocalError and never returns normally, for every constructed
template, every argument, and every behavior of the external collaborators. -/
theorem C4_langchain_format_always_unbound (self : LangchainPromptTemplate)
    (llm : Option LLM) (kw : Bindings)
    (translate : LangchainTemplate → Bindings → Except PyErr (List ChatMessage)) :
    LangchainPromptTemplate.format self llm kw = .error .unboundLocalError ∧
    LangchainPromptTemplate.format_messages translate self llm kw = .error .unboundLocalError :=
  ⟨rfl, rfl⟩

/-- Claim C5: partial binding never mutates the receiver.  In the heap model of
the mutable kwargs dicts, `partial_format` leaves the original's dict cell and
rendering untouched for both template variants, returns an object with a fresh
dict cell, and that fresh cell holds the union of old and new bindings with new
values overriding old ones. -/
theorem C5_partial_format_frame (h : DictHeap) (self : PromptTemplateObj)
    (cself : ChatPromptTemplateObj) (new : Bindings)
    (href : self.kwargsRef < h.length) (hcref : cself.kwargsRef < h.length) :
    ((PromptTemplateObj.partialFormat h self new).2.kwargsRef ≠ self.kwargsRef ∧
     (PromptTemplateObj.partialFormat h self new).2.template = self.template ∧
     heapGet (PromptTemplateObj.partialFormat h self new).1 self.kwargsRef
       = heapGet h self.kwargsRef ∧
     (∀ (llm : Option LLM) (kw : Bindings),
       PromptTemplateObj.format (PromptTemplateObj.partialFormat h self new).1 self llm kw
         = PromptTemplateObj.format h self llm kw) ∧
     heapGet (PromptTemplateObj.partialFormat h self new).1
         (PromptTemplateObj.partialFormat h self new).2.kwargsRef
       = dictUpdate (heapGet h self.kwargsRef) new) ∧
    ((ChatPromptTemplateObj.partialFormat h cself new).2.kwargsRef ≠ cself.kwargsRef ∧
     (ChatPromptTemplateObj.partialFormat h cself new).2.message_templates
       = cself.message_templates ∧
     heapGet (ChatPromptTemplateObj.partialFormat h cself new).1 cself.kwargsRef
       = heapGet h cself.kwargsRef ∧
     (∀ (llm : Option LLM) (kw : Bindings),
       ChatPromptTemplateObj.format_messages (ChatPromptTemplateObj.partialFormat h cself new).1
           cself llm kw
         = ChatPromptTemplateObj.format_messages h cself llm kw) ∧
     heapGet (ChatPromptTemplateObj.partialFormat h cself new).1
         (ChatPromptTemplateObj.partialFormat h cself new).2.kwargsRef
       = dictUpdate (heapGet h cself.kwargsRef) new) := by
  constructor
  · refine ⟨?_, rfl, ?_, ?_, ?_⟩
    · simp only [PromptTemplateObj.partialFormat]
      omega
    · simp only [PromptTemplateObj.partialFormat]
      exact heapGet_partial_old h self.kwargsRef _ _ href
    · intro llm kw
      unfold PromptTemplateObj.format
      simp only [PromptTemplateObj.partialFormat]
      rw [heapGet_partial_old h self.kwargsRef _ _ href]
    · simp only [PromptTemplateObj.partialFormat]
      exact heapGet_partial_new h _ _
  · refine ⟨?_, rfl, ?_, ?_, ?_⟩
    · simp only [ChatPromptTemplateObj.partialFormat]
      omega
    · simp only [ChatPromptTemplateObj.partialFormat]
      exact heapGet_partial_old h cself.kwargsRef _ _ hcref
    · intro llm kw
      unfold ChatPromptTemplateObj.format_messages
      simp only [ChatPromptTemplateObj.partialFormat]
      rw [heapGet_partial_old h cself.kwargsRef _ _ hcref]
    · simp only [ChatPromptTemplateObj.partialFormat]
      exact heapGet_partial_new h _ _

/-- Witness for C5 on a one-cell heap: the fresh copy gets a new cell with the
merged bindings and the original's cell is unchanged. -/
theorem C5_witness :
    (demoPTObj.kwargsRef < demoHeap.length ∧ demoChatObj.kwargsRef < demoHeap.length) ∧
    ((PromptTemplateObj.partialFormat demoHeap demoPTObj [("b", "2")]).2.kwargsRef
       ≠ demoPTObj.kwargsRef) ∧
    heapGet (PromptTemplateObj.partialFormat demoHeap demoPTObj [("b", "2")]).1
        demoPTObj.kwargsRef
      = heapGet demoHeap demoPTObj.kwargsRef ∧
    heapGet (PromptTemplateObj.partialFormat demoHeap demoPTObj [("b", "2")]).1
        (PromptTemplateObj.partialFormat demoHeap demoPTObj [("b", "2")]).2.kwargsRef
      = dictUpdate (heapGet demoHeap demoPTObj.kwargsRef) [("b", "2")] :=
  ⟨⟨by decide, by decide⟩,
   (C5_partial_format_frame demoHeap demoPTObj demoChatObj [("b", "2")]
      (by decide) (by decide)).1.1,
   (C5_partial_format_frame demoHeap demoPTObj demoChatObj [("b", "2")]
      (by decide) (by decide)).1.2.2.1,
   (C5_partial_format_frame demoHeap demoPTObj demoChatObj [("b", "2")]
      (by decide) (by decide)).1.2.2.2.2⟩

/-- Claim C6: selection is a first-match-wins linear scan with the default as
fallback: no consumer gives the default; a consumer gives the template of the
first true predicate; with no true predicate the default is selected and
`format` agrees with calling `format` on the default template directly. -/
theorem C6_selector_first_match :
    (∀ (d : BasePT) (conds : List ((LLM → Bool) × BasePT)),
      SelectorPromptTemplate.select d conds none = d) ∧
    (∀ (d : BasePT) (conds : List ((LLM → Bool) × BasePT)) (l : LLM) (i : Nat)
        (cp : (LLM → Bool) × BasePT),
      conds[i]? = some cp → cp.1 l = true →
      (∀ j, j < i → ∀ cp', conds[j]? = some cp' → cp'.1 l = false) →
      SelectorPromptTemplate.select d conds (some l) = cp.2) ∧
    (∀ (d : BasePT) (conds : List ((LLM → Bool) × BasePT)) (l : LLM),
      (∀ cp ∈ conds, cp.1 l = false) →
      SelectorPromptTemplate.select d conds (some l) = d ∧
      ∀ (m2p : List ChatMessage → String) (kw : Bindings),
        BasePT.format m2p (.sel d conds) (some l) kw = BasePT.format m2p d none kw) := by
  refine ⟨fun d conds => rfl, ?_, ?_⟩
  · intro d conds l i cp hcp htrue hprev
    unfold SelectorPromptTemplate.select
    dsimp only
    rw [firstMatch_eq_of_first l conds i cp hcp htrue hprev]
  · intro d conds l hall
    have hnone := firstMatch_none_of_all_false l conds hall
    have hsel : SelectorPromptTemplate.select d conds (some l) = d := by
      unfold SelectorPromptTemplate.select
      dsimp only
      rw [hnone]
    exact ⟨hsel, fun m2p kw => by rw [format_sel, hsel]⟩

/-- Witness for C6: with two conditionals whose predicates both hold for the
consumer with id 1, the first one wins; with no matching predicate the default
is selected. -/
theorem C6_witness :
    SelectorPromptTemplate.select demoD demoConds none = demoD ∧
    (demoConds[0]? = some (predIdOne, demoA) ∧ predIdOne demoLLM = true ∧
      predTrue demoLLM = true) ∧
    SelectorPromptTemplate.select demoD demoConds (some demoLLM) = demoA ∧
    (predIdOne demoLLM0 = false) ∧
    SelectorPromptTemplate.select demoD [(predIdOne, demoA)] (some demoLLM0) = demoD :=
  ⟨C6_selector_first_match.1 demoD demoConds,
   ⟨rfl, by decide, by decide⟩,
   C6_selector_first_match.2.1 demoD demoConds demoLLM 0 (predIdOne, demoA) rfl (by decide)
     (fun j hj => absurd hj (Nat.not_lt_zero j)),
   by decide,
   (C6_selector_first_match.2.2 demoD [(predIdOne, demoA)] demoLLM0
     (by intro cp hcp; simp at hcp; rw [hcp]; decide)).1⟩

/-- Claim C7: whenever `format_messages` succeeds, the Chat Prompt Template's
`format` returns exactly the messages-to-prompt flattener applied to that
message list, for the same bindings and any flattener. -/
theorem C7_chat_format_is_flattened_messages (m2p : List ChatMessage → String)
    (ct : ChatPromptTemplate) (llm : Option LLM) (kw : Bindings) (ms : List ChatMessage)
    (h : ChatPromptTemplate.format_messages ct llm kw = .ok ms) :
    ChatPromptTemplate.format m2p ct llm kw = .ok (m2p ms) := by
  unfold ChatPromptTemplate.format
  have h' : ChatPromptTemplate.format_messages ct none kw = .ok ms := h
  rw [h']

/-- Witness for C7: a two-message chat template rendered and then flattened by
a concrete flattener. -/
theorem C7_witness :
    (ChatPromptTemplate.format_messages demoChat none [("query", "2+2?")] = .ok demoOut) ∧
    ChatPromptTemplate.format demoM2p demoChat none [("query", "2+2?")] = .ok (demoM2p demoOut) :=
  ⟨by decide,
   C7_chat_format_is_flattened_messages demoM2p demoChat none [("query", "2+2?")] demoOut
     (by decide)⟩

/-- Claim C8: binding the same key twice through chained partial binding keeps
only the last value, for every template variant: the twice-bound template is
the once-bound template, and in particular `format` renders identically (for
any flattener, consumer, and call-site bindings). -/
theorem C8_partial_format_override (b : BasePT) (a v1 v2 : String) :
    BasePT.partialFormat (BasePT.partialFormat b [(a, v1)]) [(a, v2)] =
      BasePT.partialFormat b [(a, v2)] ∧
    ∀ (m2p : List ChatMessage → String) (llm : Option LLM) (kw : Bindings),
      BasePT.format m2p
          (BasePT.partialFormat (BasePT.partialFormat b [(a, v1)]) [(a, v2)]) llm kw
        = BasePT.format m2p (BasePT.partialFormat b [(a, v2)]) llm kw := by
  have h := partialFormat_twice_aux b a v1 v2
  exact ⟨h, fun m2p llm kw => by rw [h]⟩

/-- Claim C9: partial binding of a Selector Template yields a new selector
whose default template and conditional templates are each independently
partially bound with the same bindings, with every predicate kept and the
order of the conditional pairs preserved (the map keeps length and order).
The original selector value is untouched: the operation builds a new
`SelectorPromptTemplate` (see C5 for the heap-level non-mutation statement). -/
theorem C9_selector_partial_format (d : BasePT) (conds : List ((LLM → Bool) × BasePT))
    (kw : Bindings) :
    BasePT.partialFormat (.sel d conds) kw =
      .sel (BasePT.partialFormat d kw)
        (conds.map fun cp => (cp.1, BasePT.partialFormat cp.2 kw)) := by
  simp only [BasePT.partialFormat]
  rw [partialFormatConds_eq_map]

/-- Claim C10: a Chat Prompt Template's `template_vars` is the concatenation,
in message order, of each owned message's own placeholder list as produced by
the placeholder extractor, duplicates across messages preserved. -/
theorem C10_chat_template_vars_concat (ct : ChatPromptTemplate) :
    ChatPromptTemplate.template_vars ct =
      (ct.message_templates.map fun mm => get_template_vars (mm.content.getD "")).flatten :=
  chat_template_vars_eq_flatten ct
